import Mathlib

/-! DinD creation command (`command/dindcmd/create.go`)

A shallow embedding of `CreateDind` and of the collaborators it drives.

`CreateDind` performs three fallible calls in sequence
(`client.NewEnvClient`, `dockercli.LazyImageLoad`, `dind.New`).  The
collaborators are effectful, so they are taken as state-passing functions
over an arbitrary world state; `CreateDind` is instrumented with the list of
collaborator calls it issues, in order, with their arguments and outcome.
-/

namespace Dindcmd

/-! ## Data model -/

/-- A Go `error` value coming from a collaborator; `Error` is what its
`Error()` method returns. -/
structure GoError where
  Error : String
  deriving DecidableEq, Repr

/-- The value built by `stacktrace.Propagate(cause, msg, vals...)` for a
non-nil `cause`: the cause is kept, `message` is `msg` formatted with `vals`. -/
structure Stacktrace where
  cause : GoError
  message : String
  deriving DecidableEq, Repr

/-- The library function `stacktrace.Propagate`: a nil cause yields nil, any
other cause is wrapped with the (already formatted) message. -/
def Propagate (cause : Option GoError) (message : String) : Option Stacktrace :=
  match cause with
  | none => none
  | some err => some ⟨err, message⟩

/-- The struct `dind.DindSpec` as `CreateDind` fills it. -/
structure DindSpec where
  Name : String
  Image : String
  MITMProxyName : String
  RegistryServerAddress : String
  RegistryUsername : String
  RegistryPassword : String
  deriving DecidableEq, Repr

/-- The part of `*cli.Context` that `CreateDind` uses: `c.String(flag)`. -/
structure Context where
  String : String → String

/-- The three collaborators of `CreateDind`, over a world state `σ`, a docker
client type `κ` and the type `δ` of the value `dind.New` returns. -/
structure Collaborators (σ κ δ : Type) where
  NewEnvClient : σ → Except GoError κ × σ
  LazyImageLoad : κ → String → σ → Option GoError × σ
  New : κ → DindSpec → σ → Except GoError δ × σ

/-- The three operations `CreateDind` can invoke. -/
inductive Op where
  | NewEnvClient
  | LazyImageLoad
  | New
  deriving DecidableEq, Repr

/-- One collaborator call issued by `CreateDind`: its arguments and the error
it returned (`none` for a nil error). -/
inductive Event (κ : Type) where
  | NewEnvClient (err : Option GoError)
  | LazyImageLoad (cli : κ) (ref : String) (err : Option GoError)
  | New (cli : κ) (spec : DindSpec) (err : Option GoError)

/-- The operation an event is a call of. -/
def Event.op {κ : Type} : Event κ → Op
  | .NewEnvClient _ => .NewEnvClient
  | .LazyImageLoad _ _ _ => .LazyImageLoad
  | .New _ _ _ => .New

/-- The arguments `(cli, ref)` of an event that is a `LazyImageLoad` call. -/
def Event.lazyArgs {κ : Type} : Event κ → Option (κ × String)
  | .LazyImageLoad cli ref _ => some (cli, ref)
  | _ => none

/-- Outcome of one execution of `CreateDind`: the returned error, the
collaborator calls in the order issued, and the final world state. -/
structure Run (σ κ : Type) where
  err : Option Stacktrace
  trace : List (Event κ)
  world : σ

/-! ## The command -/

/-- The function `CreateDind` of `create.go`. -/
def CreateDind {σ κ δ : Type} (col : Collaborators σ κ δ) (c : Context) (w : σ) :
    Run σ κ :=
  match col.NewEnvClient w with
  | (.error err, w1) =>
    ⟨Propagate (some err) ("failed to create docker client from env: " ++ err.Error),
      [.NewEnvClient (some err)], w1⟩
  | (.ok cli, w1) =>
    let spec : DindSpec :=
      { Name := c.String "name"
        Image := c.String "image"
        MITMProxyName := c.String "mitm"
        RegistryServerAddress := c.String "registry"
        RegistryUsername := c.String "username"
        RegistryPassword := c.String "password" }
    match col.LazyImageLoad cli spec.Image w1 with
    | (some err, w2) =>
      ⟨Propagate (some err) "failed to load dind image",
        [.NewEnvClient none, .LazyImageLoad cli spec.Image (some err)], w2⟩
    | (none, w2) =>
      match col.New cli spec w2 with
      | (.error err, w3) =>
        ⟨Propagate (some err) "failed to create new dind",
          [.NewEnvClient none, .LazyImageLoad cli spec.Image none,
            .New cli spec (some err)], w3⟩
      | (.ok _, w3) =>
        ⟨none,
          [.NewEnvClient none, .LazyImageLoad cli spec.Image none,
            .New cli spec none], w3⟩

/-- The error an event's call returned. -/
def Event.err {κ : Type} : Event κ → Option GoError
  | .NewEnvClient err => err
  | .LazyImageLoad _ _ err => err
  | .New _ _ err => err

/-- The word `ident` occurs in `message`. -/
def Mentions (message ident : String) : Prop :=
  ident.data <:+: message.data

/-! ## Sample collaborators used to evaluate the command -/

/-- Collaborators over a call counter whose three outcomes are chosen by the
arguments: the client is `7`, the sandbox is `1`. -/
def sampleCollaborators (e1 e2 e3 : Option GoError) : Collaborators Nat Nat Nat where
  NewEnvClient w :=
    match e1 with
    | some e => (.error e, w + 1)
    | none => (.ok 7, w + 1)
  LazyImageLoad _ _ w := (e2, w + 1)
  New _ _ w :=
    match e3 with
    | some e => (.error e, w + 1)
    | none => (.ok 1, w + 1)

/-- Flags of a run `--name sbx1 --image alpine:3.18 --username bob` with the
given password: `registry` and `mitm` are left empty. -/
def sampleContext (password : String) : Context where
  String flag :=
    if flag = "name" then "sbx1"
    else if flag = "image" then "alpine:3.18"
    else if flag = "username" then "bob"
    else if flag = "password" then password
    else ""

/-! ## Image resolver and provisioner

The packages `docker/dockercli` (`LazyImageLoad`) and `docker/dind` (`New`)
are modelled from the specification (sections 4.1, 4.2, 4.3, 6, 7), over the
in-memory fake engine of its sections 8 and 9. -/

/-- A container held by the fake engine. -/
structure Container where
  id : Nat
  name : String
  image : String
  attachment : Option String
  started : Bool
  deriving DecidableEq, Repr

/-- Modelled from the spec: the in-memory fake engine client of sections 8
and 9, which the missing packages are tested against.  It holds the local
image store, the references the registry can serve, the running proxy
resources (name and attachment point) and the containers; `reachable`,
`startFails` and `removeFails` simulate the transport failure, the start
failure and the cleanup failure of section 7. -/
structure Engine where
  images : List String
  upstream : List String
  proxies : List (String × String)
  containers : List Container
  nextId : Nat
  reachable : Bool
  startFails : Bool
  removeFails : Bool
  deriving DecidableEq, Repr

/-- One call on the engine client's capability set (section 6), with its
outcome. -/
inductive EngineCall where
  | FindImage (ref : String) (found : Option Bool)
  | PullImage (ref : String) (ok : Bool)
  | FindNetworkOrResource (name : String) (found : Option (Option String))
  | CreateContainer (name : String) (id : Option Nat)
  | StartContainer (id : Nat) (ok : Bool)
  | RemoveContainer (id : Nat) (ok : Bool)
  deriving DecidableEq, Repr

/-- Whether a call is a pull. -/
def EngineCall.isPull : EngineCall → Bool
  | .PullImage _ _ => true
  | _ => false

/-- The error taxonomy of section 7.  `StartFailed` carries the container id
and whether the container was left behind because cleanup failed. -/
inductive SandboxError where
  | InvalidSpec
  | EngineUnavailable
  | PullFailed (ref : String)
  | ImageNotFound (ref : String)
  | ProxyNotFound (name : String)
  | CreateFailed (name : String)
  | StartFailed (id : Nat) (residual : Bool)
  deriving DecidableEq, Repr

/-- Modelled from the spec: `FindImage(ref) -> metadata|NotFound` of the fake
engine; `none` when the engine cannot be reached. -/
def Engine.FindImage (eng : Engine) (ref : String) : Option Bool :=
  if eng.reachable then some (decide (ref ∈ eng.images)) else none

/-- Modelled from the spec: `PullImage(ref)` of the fake engine.  The pull
succeeds for a reference the registry serves and stores the image; it fails
otherwise and leaves the store as it was. -/
def Engine.PullImage (eng : Engine) (ref : String) : Bool × Engine :=
  if eng.reachable && decide (ref ∈ eng.upstream) then
    (true, { eng with images := ref :: eng.images })
  else (false, eng)

/-- Modelled from the spec: `FindNetworkOrResource(name) -> attachment|NotFound`
of the fake engine; `none` when the engine cannot be reached. -/
def Engine.FindNetworkOrResource (eng : Engine) (name : String) : Option (Option String) :=
  if eng.reachable then some (eng.proxies.lookup name) else none

/-- Modelled from the spec: `CreateContainer(config) -> id|error` of the fake
engine.  A duplicate name is a conflict; otherwise a stopped container with
a fresh id is added. -/
def Engine.CreateContainer (eng : Engine) (name image : String) (attachment : Option String) :
    Except SandboxError Nat × Engine :=
  if eng.reachable then
    if eng.containers.any (fun k => k.name == name) then (.error (.CreateFailed name), eng)
    else
      (.ok eng.nextId,
        { eng with
          containers := ⟨eng.nextId, name, image, attachment, false⟩ :: eng.containers
          nextId := eng.nextId + 1 })
  else (.error .EngineUnavailable, eng)

/-- Modelled from the spec: `StartContainer(id) -> error` of the fake engine,
which rejects the start when `startFails` is set. -/
def Engine.StartContainer (eng : Engine) (id : Nat) : Bool × Engine :=
  if eng.reachable && !eng.startFails then
    (true,
      { eng with
        containers := eng.containers.map
          (fun k => if k.id = id then { k with started := true } else k) })
  else (false, eng)

/-- Modelled from the spec: `RemoveContainer(id) -> error` of the fake engine,
which fails and keeps the container when `removeFails` is set. -/
def Engine.RemoveContainer (eng : Engine) (id : Nat) : Bool × Engine :=
  if eng.reachable && !eng.removeFails then
    (true, { eng with containers := eng.containers.filter (fun k => k.id != id) })
  else (false, eng)

/-- Outcome of a call of the resolver or the provisioner: the result, the
engine calls in the order issued, and the engine afterwards. -/
structure EngineRun (α : Type) where
  result : α
  calls : List EngineCall
  engine : Engine

/-- Modelled from the spec: the image resolver `EnsureImage` of section 4.1,
that is `dockercli.LazyImageLoad`.  It queries the engine for the reference;
when present it returns at once; when absent it pulls the exact reference
and then locates the image again. -/
def LazyImageLoad (eng : Engine) (ref : String) : EngineRun (Option SandboxError) :=
  match eng.FindImage ref with
  | none => ⟨some .EngineUnavailable, [.FindImage ref none], eng⟩
  | some true => ⟨none, [.FindImage ref (some true)], eng⟩
  | some false =>
    match eng.PullImage ref with
    | (false, eng1) =>
      ⟨some (.PullFailed ref), [.FindImage ref (some false), .PullImage ref false], eng1⟩
    | (true, eng1) =>
      match eng1.FindImage ref with
      | some true =>
        ⟨none, [.FindImage ref (some false), .PullImage ref true,
          .FindImage ref (some true)], eng1⟩
      | found =>
        ⟨some (.ImageNotFound ref), [.FindImage ref (some false), .PullImage ref true,
          .FindImage ref found], eng1⟩

/-- Modelled from the spec: the validation of section 4.3 against the
invariants of section 3.  The name and the image reference are non-empty,
and when any registry field is populated both the server address and the
username are non-empty. -/
def validSpec (spec : DindSpec) : Bool :=
  spec.Name != "" && spec.Image != "" &&
    ((spec.RegistryServerAddress == "" && spec.RegistryUsername == "" &&
        spec.RegistryPassword == "") ||
      (spec.RegistryServerAddress != "" && spec.RegistryUsername != ""))

/-- The sandbox handle of section 3: the container id and the resolved
proxy attachment. -/
structure SandboxHandle where
  id : Nat
  attachment : Option String
  deriving DecidableEq, Repr

/-- Modelled from the spec: steps 3 to 6 of `CreateSandbox`.  The container
is created from the name, the image reference and the resolved attachment
(the credentials are scoped to the call and the fake engine keeps none),
then started; on a start failure it is removed before the error is
returned, and reported as residual when the removal fails too. -/
def createAndStart (eng : Engine) (spec : DindSpec) (attachment : Option String)
    (pre : List EngineCall) : EngineRun (Except SandboxError SandboxHandle) :=
  match eng.CreateContainer spec.Name spec.Image attachment with
  | (.error e, eng1) => ⟨.error e, pre ++ [.CreateContainer spec.Name none], eng1⟩
  | (.ok id, eng1) =>
    match eng1.StartContainer id with
    | (true, eng2) =>
      ⟨.ok ⟨id, attachment⟩,
        pre ++ [.CreateContainer spec.Name (some id), .StartContainer id true], eng2⟩
    | (false, eng2) =>
      match eng2.RemoveContainer id with
      | (ok, eng3) =>
        ⟨.error (.StartFailed id (!ok)),
          pre ++ [.CreateContainer spec.Name (some id), .StartContainer id false,
            .RemoveContainer id ok], eng3⟩

/-- Modelled from the spec: the provisioner `CreateSandbox` of section 4.2,
that is `dind.New`.  An invalid spec is rejected before any engine call; a
proxy name, when set, is resolved before the container is created; then the
container is created and started. -/
def New (eng : Engine) (spec : DindSpec) : EngineRun (Except SandboxError SandboxHandle) :=
  if validSpec spec then
    if spec.MITMProxyName = "" then createAndStart eng spec none []
    else
      match eng.FindNetworkOrResource spec.MITMProxyName with
      | none =>
        ⟨.error .EngineUnavailable, [.FindNetworkOrResource spec.MITMProxyName none], eng⟩
      | some none =>
        ⟨.error (.ProxyNotFound spec.MITMProxyName),
          [.FindNetworkOrResource spec.MITMProxyName (some none)], eng⟩
      | some (some a) =>
        createAndStart eng spec (some a) [.FindNetworkOrResource spec.MITMProxyName (some (some a))]
  else ⟨.error .InvalidSpec, [], eng⟩

/-- The fake engine of the scenarios of section 8: `alpine:3.18` can be
pulled, nothing is cached, no container exists. -/
def sampleEngine (startFails removeFails : Bool) : Engine where
  images := []
  upstream := ["alpine:3.18"]
  proxies := [("proxy-x", "10.0.0.2:8080")]
  containers := []
  nextId := 1
  reachable := true
  startFails := startFails
  removeFails := removeFails

/-- The spec of the scenarios of section 8. -/
def sampleSpec : DindSpec :=
  ⟨"sbx1", "alpine:3.18", "", "", "", ""⟩

/-! ## Outcomes of `CreateDind` -/

/-- The four ways an execution of `CreateDind` can go, each with the
collaborator results that select it. -/
theorem CreateDind_outcome {σ κ δ : Type} (col : Collaborators σ κ δ) (c : Context) (w : σ) :
    (∃ e w1, col.NewEnvClient w = (.error e, w1) ∧
      CreateDind col c w =
        ⟨some ⟨e, "failed to create docker client from env: " ++ e.Error⟩,
          [.NewEnvClient (some e)], w1⟩) ∨
    (∃ cli w1 e w2, col.NewEnvClient w = (.ok cli, w1) ∧
      col.LazyImageLoad cli (c.String "image") w1 = (some e, w2) ∧
      CreateDind col c w =
        ⟨some ⟨e, "failed to load dind image"⟩,
          [.NewEnvClient none, .LazyImageLoad cli (c.String "image") (some e)], w2⟩) ∨
    (∃ cli w1 w2 e w3, col.NewEnvClient w = (.ok cli, w1) ∧
      col.LazyImageLoad cli (c.String "image") w1 = (none, w2) ∧
      col.New cli ⟨c.String "name", c.String "image", c.String "mitm",
        c.String "registry", c.String "username", c.String "password"⟩ w2 = (.error e, w3) ∧
      CreateDind col c w =
        ⟨some ⟨e, "failed to create new dind"⟩,
          [.NewEnvClient none, .LazyImageLoad cli (c.String "image") none,
            .New cli ⟨c.String "name", c.String "image", c.String "mitm",
              c.String "registry", c.String "username", c.String "password"⟩ (some e)], w3⟩) ∨
    (∃ cli w1 w2 d w3, col.NewEnvClient w = (.ok cli, w1) ∧
      col.LazyImageLoad cli (c.String "image") w1 = (none, w2) ∧
      col.New cli ⟨c.String "name", c.String "image", c.String "mitm",
        c.String "registry", c.String "username", c.String "password"⟩ w2 = (.ok d, w3) ∧
      CreateDind col c w =
        ⟨none,
          [.NewEnvClient none, .LazyImageLoad cli (c.String "image") none,
            .New cli ⟨c.String "name", c.String "image", c.String "mitm",
              c.String "registry", c.String "username", c.String "password"⟩ none], w3⟩) := by
  unfold CreateDind
  rcases h1 : col.NewEnvClient w with ⟨r1, w1⟩
  cases r1 with
  | error e => left; exact ⟨e, w1, rfl, by simp [Propagate]⟩
  | ok cli =>
    right
    rcases h2 : col.LazyImageLoad cli (c.String "image") w1 with ⟨r2, w2⟩
    cases r2 with
    | some e => left; exact ⟨cli, w1, e, w2, rfl, h2, by simp [Propagate, h2]⟩
    | none =>
      right
      rcases h3 : col.New cli ⟨c.String "name", c.String "image", c.String "mitm",
        c.String "registry", c.String "username", c.String "password"⟩ w2 with ⟨r3, w3⟩
      cases r3 with
      | error e => left; exact ⟨cli, w1, w2, e, w3, rfl, h2, h3, by simp [Propagate, h2, h3]⟩
      | ok d => right; exact ⟨cli, w1, w2, d, w3, rfl, h2, h3, by simp [h2, h3]⟩

/-- C10: when `client.NewEnvClient` returns an error, `CreateDind` returns a
non-nil error at once and the only collaborator call is that `NewEnvClient`
call: neither `LazyImageLoad` nor `dind.New` is invoked, whatever the flags. -/
theorem CreateDind_client_error_stops {σ κ δ : Type} (col : Collaborators σ κ δ)
    (c : Context) (w : σ) (e : GoError) (w1 : σ)
    (h : col.NewEnvClient w = (.error e, w1)) :
    (CreateDind col c w).err ≠ none ∧
    (CreateDind col c w).trace = [.NewEnvClient (some e)] ∧
    (∀ ev ∈ (CreateDind col c w).trace, ev.op ≠ .LazyImageLoad ∧ ev.op ≠ .New) := by
  rcases CreateDind_outcome col c w with ⟨e', w1', h1, hr⟩ | ⟨cli, w1', _, _, h1, _⟩ |
    ⟨cli, w1', _, _, _, h1, _⟩ | ⟨cli, w1', _, _, _, h1, _⟩
  · rw [h] at h1
    simp only [Prod.mk.injEq, Except.error.injEq] at h1
    obtain ⟨rfl, rfl⟩ := h1
    simp [hr, Event.op]
  all_goals (rw [h] at h1; simp at h1)

/-- C10 evaluated: a failing `NewEnvClient` with the sample flags. -/
theorem CreateDind_client_error_stops_witness :
    (CreateDind (sampleCollaborators (some ⟨"no docker"⟩) none none)
        (sampleContext "pw") 0).err ≠ none ∧
    (CreateDind (sampleCollaborators (some ⟨"no docker"⟩) none none)
        (sampleContext "pw") 0).trace = [.NewEnvClient (some ⟨"no docker"⟩)] ∧
    (∀ ev ∈ (CreateDind (sampleCollaborators (some ⟨"no docker"⟩) none none)
        (sampleContext "pw") 0).trace, ev.op ≠ .LazyImageLoad ∧ ev.op ≠ .New) :=
  CreateDind_client_error_stops (sampleCollaborators (some ⟨"no docker"⟩) none none)
    (sampleContext "pw") 0 ⟨"no docker"⟩ 1 rfl

/-- C1: in every execution of `CreateDind`, a call of `dind.New` occurs only
as the third call, right after a `LazyImageLoad` call on the same client with
the image reference the spec carries (`spec.Image`) that returned no error;
and whenever a `LazyImageLoad` call returned an error, no `dind.New` call is
in the trace and `CreateDind` returns a non-nil error. -/
theorem CreateDind_new_after_image_load {σ κ δ : Type} (col : Collaborators σ κ δ)
    (c : Context) (w : σ) :
    (∀ cli spec e, Event.New cli spec e ∈ (CreateDind col c w).trace →
      (∃ w1 w2, col.NewEnvClient w = (.ok cli, w1) ∧
        col.LazyImageLoad cli spec.Image w1 = (none, w2)) ∧
      (CreateDind col c w).trace =
        [.NewEnvClient none, .LazyImageLoad cli spec.Image none, .New cli spec e]) ∧
    (∀ cli ref e, Event.LazyImageLoad cli ref (some e) ∈ (CreateDind col c w).trace →
      (∀ ev ∈ (CreateDind col c w).trace, ev.op ≠ .New) ∧
      (CreateDind col c w).err ≠ none) := by
  rcases CreateDind_outcome col c w with ⟨e', w1, h1, hr⟩ | ⟨cli', w1, e', w2, h1, h2, hr⟩ |
    ⟨cli', w1, w2, e', w3, h1, h2, h3, hr⟩ | ⟨cli', w1, w2, d, w3, h1, h2, h3, hr⟩
  · simp [hr, Event.op]
  · simp [hr, Event.op]
  · refine ⟨?_, ?_⟩
    · intro cli spec e hmem
      simp only [hr, List.mem_cons, List.mem_singleton, List.not_mem_nil, or_false, false_or,
        Event.New.injEq, reduceCtorEq] at hmem
      obtain ⟨rfl, rfl, rfl⟩ := hmem
      exact ⟨⟨w1, w2, h1, h2⟩, by rw [hr]⟩
    · simp [hr]
  · refine ⟨?_, ?_⟩
    · intro cli spec e hmem
      simp only [hr, List.mem_cons, List.mem_singleton, List.not_mem_nil, or_false, false_or,
        Event.New.injEq, reduceCtorEq] at hmem
      obtain ⟨rfl, rfl, rfl⟩ := hmem
      exact ⟨⟨w1, w2, h1, h2⟩, by rw [hr]⟩
    · simp [hr]

/-- C1 evaluated on a run where all collaborators succeed (the `dind.New`
call is third) and on a run where `LazyImageLoad` fails (no `dind.New`). -/
theorem CreateDind_new_after_image_load_witness :
    ((∃ w1 w2, (sampleCollaborators none none none).NewEnvClient 0 = (.ok 7, w1) ∧
        (sampleCollaborators none none none).LazyImageLoad 7 "alpine:3.18" w1 = (none, w2)) ∧
      (CreateDind (sampleCollaborators none none none) (sampleContext "pw") 0).trace =
        [.NewEnvClient none, .LazyImageLoad 7 "alpine:3.18" none,
          .New 7 ⟨"sbx1", "alpine:3.18", "", "", "bob", "pw"⟩ none]) ∧
    ((∀ ev ∈ (CreateDind (sampleCollaborators none (some ⟨"pull denied"⟩) none)
        (sampleContext "pw") 0).trace, ev.op ≠ .New) ∧
      (CreateDind (sampleCollaborators none (some ⟨"pull denied"⟩) none)
        (sampleContext "pw") 0).err ≠ none) :=
  ⟨(CreateDind_new_after_image_load (sampleCollaborators none none none)
      (sampleContext "pw") 0).1 7 ⟨"sbx1", "alpine:3.18", "", "", "bob", "pw"⟩ none
      (by simp [CreateDind, sampleCollaborators, sampleContext]),
   (CreateDind_new_after_image_load (sampleCollaborators none (some ⟨"pull denied"⟩) none)
      (sampleContext "pw") 0).2 7 "alpine:3.18" ⟨"pull denied"⟩
      (by simp [CreateDind, sampleCollaborators, sampleContext])⟩

/-- C3: no error is swallowed.  `CreateDind` returns nil exactly when
`NewEnvClient`, `LazyImageLoad` and `dind.New` are called in turn and each
returns without error; and when one of them returns an error, `CreateDind`
returns a non-nil error whose cause is that error. -/
theorem CreateDind_no_error_swallowed {σ κ δ : Type} (col : Collaborators σ κ δ)
    (c : Context) (w : σ) :
    ((CreateDind col c w).err = none ↔
      ∃ cli w1 w2 d w3, col.NewEnvClient w = (.ok cli, w1) ∧
        col.LazyImageLoad cli (c.String "image") w1 = (none, w2) ∧
        col.New cli ⟨c.String "name", c.String "image", c.String "mitm",
          c.String "registry", c.String "username", c.String "password"⟩ w2 = (.ok d, w3)) ∧
    (∀ e w1, col.NewEnvClient w = (.error e, w1) →
      ∃ st, (CreateDind col c w).err = some st ∧ st.cause = e) ∧
    (∀ cli w1 e w2, col.NewEnvClient w = (.ok cli, w1) →
      col.LazyImageLoad cli (c.String "image") w1 = (some e, w2) →
      ∃ st, (CreateDind col c w).err = some st ∧ st.cause = e) ∧
    (∀ cli w1 w2 e w3, col.NewEnvClient w = (.ok cli, w1) →
      col.LazyImageLoad cli (c.String "image") w1 = (none, w2) →
      col.New cli ⟨c.String "name", c.String "image", c.String "mitm",
        c.String "registry", c.String "username", c.String "password"⟩ w2 = (.error e, w3) →
      ∃ st, (CreateDind col c w).err = some st ∧ st.cause = e) := by
  rcases CreateDind_outcome col c w with ⟨e', w1, h1, hr⟩ | ⟨cli', w1, e', w2, h1, h2, hr⟩ |
    ⟨cli', w1, w2, e', w3, h1, h2, h3, hr⟩ | ⟨cli', w1, w2, d, w3, h1, h2, h3, hr⟩
  · refine ⟨?_, ?_, ?_, ?_⟩
    · simp [hr, h1]
    · intro e w1' g1
      rw [h1] at g1
      simp only [Prod.mk.injEq, Except.error.injEq] at g1
      exact ⟨_, by rw [hr], g1.1⟩
    · intro cli w1' e w2 g1
      simp [h1] at g1
    · intro cli w1' w2 e w3 g1
      simp [h1] at g1
  · refine ⟨?_, ?_, ?_, ?_⟩
    · simp only [hr, reduceCtorEq, false_iff, not_exists, not_and]
      intro cli w1' w2' d w3' g1 g2
      rw [h1] at g1
      simp only [Prod.mk.injEq, Except.ok.injEq] at g1
      obtain ⟨rfl, rfl⟩ := g1
      simp [h2] at g2
    · intro e w1' g1
      simp [h1] at g1
    · intro cli w1' e w2' g1 g2
      rw [h1] at g1
      simp only [Prod.mk.injEq, Except.ok.injEq] at g1
      obtain ⟨rfl, rfl⟩ := g1
      rw [h2] at g2
      simp only [Prod.mk.injEq, Option.some.injEq] at g2
      exact ⟨_, by rw [hr], g2.1⟩
    · intro cli w1' w2' e w3 g1 g2
      rw [h1] at g1
      simp only [Prod.mk.injEq, Except.ok.injEq] at g1
      obtain ⟨rfl, rfl⟩ := g1
      simp [h2] at g2
  · refine ⟨?_, ?_, ?_, ?_⟩
    · simp only [hr, reduceCtorEq, false_iff, not_exists]
      intro cli w1' w2' d w3' ⟨g1, g2, g3⟩
      rw [h1] at g1
      simp only [Prod.mk.injEq, Except.ok.injEq] at g1
      obtain ⟨rfl, rfl⟩ := g1
      rw [h2] at g2
      simp only [Prod.mk.injEq, true_and] at g2
      subst g2
      simp [h3] at g3
    · intro e w1' g1
      simp [h1] at g1
    · intro cli w1' e w2' g1 g2
      rw [h1] at g1
      simp only [Prod.mk.injEq, Except.ok.injEq] at g1
      obtain ⟨rfl, rfl⟩ := g1
      simp [h2] at g2
    · intro cli w1' w2' e w3' g1 g2 g3
      rw [h1] at g1
      simp only [Prod.mk.injEq, Except.ok.injEq] at g1
      obtain ⟨rfl, rfl⟩ := g1
      rw [h2] at g2
      simp only [Prod.mk.injEq, true_and] at g2
      subst g2
      rw [h3] at g3
      simp only [Prod.mk.injEq, Except.error.injEq] at g3
      exact ⟨_, by rw [hr], g3.1⟩
  · refine ⟨?_, ?_, ?_, ?_⟩
    · simp only [hr, true_iff]
      exact ⟨cli', w1, w2, d, w3, h1, h2, h3⟩
    · intro e w1' g1
      simp [h1] at g1
    · intro cli w1' e w2' g1 g2
      rw [h1] at g1
      simp only [Prod.mk.injEq, Except.ok.injEq] at g1
      obtain ⟨rfl, rfl⟩ := g1
      simp [h2] at g2
    · intro cli w1' w2' e w3' g1 g2 g3
      rw [h1] at g1
      simp only [Prod.mk.injEq, Except.ok.injEq] at g1
      obtain ⟨rfl, rfl⟩ := g1
      rw [h2] at g2
      simp only [Prod.mk.injEq, true_and] at g2
      subst g2
      simp [h3] at g3

/-- C3 evaluated: with a failing `dind.New` the returned error has that
error as its cause. -/
theorem CreateDind_no_error_swallowed_witness :
    ∃ st, (CreateDind (sampleCollaborators none none (some ⟨"name in use"⟩))
        (sampleContext "pw") 0).err = some st ∧ st.cause = ⟨"name in use"⟩ :=
  (CreateDind_no_error_swallowed (sampleCollaborators none none (some ⟨"name in use"⟩))
    (sampleContext "pw") 0).2.2.2 7 1 2 ⟨"name in use"⟩ 3 rfl rfl rfl

/-- C7: no retry.  In every execution of `CreateDind` the sequence of
collaborator calls is a prefix of `[NewEnvClient, LazyImageLoad, dind.New]`,
so each of the three is invoked at most once, whatever they return. -/
theorem CreateDind_no_retry {σ κ δ : Type} (col : Collaborators σ κ δ)
    (c : Context) (w : σ) :
    (CreateDind col c w).trace.map Event.op <+: [Op.NewEnvClient, Op.LazyImageLoad, Op.New] ∧
    ∀ o : Op, ((CreateDind col c w).trace.map Event.op).count o ≤ 1 := by
  rcases CreateDind_outcome col c w with ⟨e', w1, h1, hr⟩ | ⟨cli', w1, e', w2, h1, h2, hr⟩ |
    ⟨cli', w1, w2, e', w3, h1, h2, h3, hr⟩ | ⟨cli', w1, w2, d, w3, h1, h2, h3, hr⟩
  · refine ⟨?_, ?_⟩
    · rw [hr]; exact ⟨[Op.LazyImageLoad, Op.New], rfl⟩
    · intro o; cases o <;> simp [hr, Event.op]
  · refine ⟨?_, ?_⟩
    · rw [hr]; exact ⟨[Op.New], rfl⟩
    · intro o; cases o <;> simp [hr, Event.op]
  · refine ⟨?_, ?_⟩
    · rw [hr]; exact ⟨[], rfl⟩
    · intro o; cases o <;> simp [hr, Event.op]
  · refine ⟨?_, ?_⟩
    · rw [hr]; exact ⟨[], rfl⟩
    · intro o; cases o <;> simp [hr, Event.op]

/-- C5: the spec is built once from the flags and handed on unchanged.  The
spec of every `dind.New` call has each field equal to the value of its flag,
the reference of every `LazyImageLoad` call is the `image` flag, and it is
the `Image` field of the spec handed to `dind.New`. -/
theorem CreateDind_spec_from_flags {σ κ δ : Type} (col : Collaborators σ κ δ)
    (c : Context) (w : σ) :
    (∀ cli spec e, Event.New cli spec e ∈ (CreateDind col c w).trace →
      spec.Name = c.String "name" ∧ spec.Image = c.String "image" ∧
      spec.MITMProxyName = c.String "mitm" ∧
      spec.RegistryServerAddress = c.String "registry" ∧
      spec.RegistryUsername = c.String "username" ∧
      spec.RegistryPassword = c.String "password") ∧
    (∀ cli ref e, Event.LazyImageLoad cli ref e ∈ (CreateDind col c w).trace →
      ref = c.String "image") ∧
    (∀ cli ref e cli2 spec e2, Event.LazyImageLoad cli ref e ∈ (CreateDind col c w).trace →
      Event.New cli2 spec e2 ∈ (CreateDind col c w).trace → ref = spec.Image) := by
  rcases CreateDind_outcome col c w with ⟨e', w1, h1, hr⟩ | ⟨cli', w1, e', w2, h1, h2, hr⟩ |
    ⟨cli', w1, w2, e', w3, h1, h2, h3, hr⟩ | ⟨cli', w1, w2, d, w3, h1, h2, h3, hr⟩
  · simp [hr]
  · simp only [hr, List.mem_cons, List.mem_singleton, List.not_mem_nil, or_false, false_or,
      Event.LazyImageLoad.injEq, reduceCtorEq]
    refine ⟨?_, ?_, ?_⟩
    · intro cli spec e h; exact h.elim
    · rintro cli ref e ⟨-, rfl, -⟩; rfl
    · intro cli ref e cli2 spec e2 _ h; exact h.elim
  · simp only [hr, List.mem_cons, List.mem_singleton, List.not_mem_nil, or_false, false_or,
      Event.New.injEq, Event.LazyImageLoad.injEq, reduceCtorEq]
    refine ⟨?_, ?_, ?_⟩
    · rintro cli spec e ⟨-, rfl, -⟩; simp
    · rintro cli ref e ⟨-, rfl, -⟩; rfl
    · rintro cli ref e cli2 spec e2 ⟨-, rfl, -⟩ ⟨-, rfl, -⟩; rfl
  · simp only [hr, List.mem_cons, List.mem_singleton, List.not_mem_nil, or_false, false_or,
      Event.New.injEq, Event.LazyImageLoad.injEq, reduceCtorEq]
    refine ⟨?_, ?_, ?_⟩
    · rintro cli spec e ⟨-, rfl, -⟩; simp
    · rintro cli ref e ⟨-, rfl, -⟩; rfl
    · rintro cli ref e cli2 spec e2 ⟨-, rfl, -⟩ ⟨-, rfl, -⟩; rfl

/-- C5 evaluated on the sample run: the spec handed to `dind.New` carries the
six flag values. -/
theorem CreateDind_spec_from_flags_witness :
    (⟨"sbx1", "alpine:3.18", "", "", "bob", "pw"⟩ : DindSpec).Name =
        (sampleContext "pw").String "name" ∧
      (⟨"sbx1", "alpine:3.18", "", "", "bob", "pw"⟩ : DindSpec).Image =
        (sampleContext "pw").String "image" ∧
      (⟨"sbx1", "alpine:3.18", "", "", "bob", "pw"⟩ : DindSpec).MITMProxyName =
        (sampleContext "pw").String "mitm" ∧
      (⟨"sbx1", "alpine:3.18", "", "", "bob", "pw"⟩ : DindSpec).RegistryServerAddress =
        (sampleContext "pw").String "registry" ∧
      (⟨"sbx1", "alpine:3.18", "", "", "bob", "pw"⟩ : DindSpec).RegistryUsername =
        (sampleContext "pw").String "username" ∧
      (⟨"sbx1", "alpine:3.18", "", "", "bob", "pw"⟩ : DindSpec).RegistryPassword =
        (sampleContext "pw").String "password" :=
  (CreateDind_spec_from_flags (sampleCollaborators none none none) (sampleContext "pw") 0).1
    7 ⟨"sbx1", "alpine:3.18", "", "", "bob", "pw"⟩ none
    (by simp [CreateDind, sampleCollaborators, sampleContext])

/-- C2 refuted on the code: with `--username bob` and no `--registry`, and
collaborators that succeed, `CreateDind` returns nil after invoking both
`LazyImageLoad` and `dind.New`. -/
theorem CreateDind_username_without_registry_runs :
    (sampleContext "pw").String "username" ≠ "" ∧
    (sampleContext "pw").String "registry" = "" ∧
    (CreateDind (sampleCollaborators none none none) (sampleContext "pw") 0).err = none ∧
    (CreateDind (sampleCollaborators none none none) (sampleContext "pw") 0).trace.map Event.op =
      [Op.NewEnvClient, Op.LazyImageLoad, Op.New] := by
  refine ⟨by decide, by decide, ?_, ?_⟩ <;>
    simp [CreateDind, sampleCollaborators, sampleContext, Event.op]

/-- C2 as amended: `CreateDind` does not inspect the registry flags.  For
every flag assignment, once `NewEnvClient` succeeds `LazyImageLoad` is
invoked with the `image` flag; once that succeeds `dind.New` is invoked with
the spec carrying the `registry` and `username` flags unchanged; and an error
returned by `CreateDind` always has the error of a collaborator call as its
cause. -/
theorem CreateDind_no_spec_validation {σ κ δ : Type} (col : Collaborators σ κ δ)
    (c : Context) (w : σ) :
    (∀ cli w1, col.NewEnvClient w = (.ok cli, w1) →
      ∃ e, Event.LazyImageLoad cli (c.String "image") e ∈ (CreateDind col c w).trace) ∧
    (∀ cli w1 w2, col.NewEnvClient w = (.ok cli, w1) →
      col.LazyImageLoad cli (c.String "image") w1 = (none, w2) →
      ∃ spec e, Event.New cli spec e ∈ (CreateDind col c w).trace ∧
        spec.RegistryServerAddress = c.String "registry" ∧
        spec.RegistryUsername = c.String "username") ∧
    (∀ st, (CreateDind col c w).err = some st →
      ∃ ev ∈ (CreateDind col c w).trace, ev.err = some st.cause) := by
  rcases CreateDind_outcome col c w with ⟨e', w1, h1, hr⟩ | ⟨cli', w1, e', w2, h1, h2, hr⟩ |
    ⟨cli', w1, w2, e', w3, h1, h2, h3, hr⟩ | ⟨cli', w1, w2, d, w3, h1, h2, h3, hr⟩
  · refine ⟨?_, ?_, ?_⟩
    · intro cli w1' g1; simp [h1] at g1
    · intro cli w1' w2' g1; simp [h1] at g1
    · intro st hst
      rw [hr] at hst
      simp only [Option.some.injEq] at hst
      subst hst
      exact ⟨.NewEnvClient (some e'), by simp [hr], rfl⟩
  · refine ⟨?_, ?_, ?_⟩
    · intro cli w1' g1
      rw [h1] at g1
      simp only [Prod.mk.injEq, Except.ok.injEq] at g1
      obtain ⟨rfl, rfl⟩ := g1
      exact ⟨some e', by simp [hr]⟩
    · intro cli w1' w2' g1 g2
      rw [h1] at g1
      simp only [Prod.mk.injEq, Except.ok.injEq] at g1
      obtain ⟨rfl, rfl⟩ := g1
      simp [h2] at g2
    · intro st hst
      rw [hr] at hst
      simp only [Option.some.injEq] at hst
      subst hst
      exact ⟨.LazyImageLoad cli' (c.String "image") (some e'), by simp [hr], rfl⟩
  · refine ⟨?_, ?_, ?_⟩
    · intro cli w1' g1
      rw [h1] at g1
      simp only [Prod.mk.injEq, Except.ok.injEq] at g1
      obtain ⟨rfl, rfl⟩ := g1
      exact ⟨none, by simp [hr]⟩
    · intro cli w1' w2' g1 g2
      rw [h1] at g1
      simp only [Prod.mk.injEq, Except.ok.injEq] at g1
      obtain ⟨rfl, rfl⟩ := g1
      exact ⟨(⟨c.String "name", c.String "image", c.String "mitm",
        c.String "registry", c.String "username", c.String "password"⟩ : DindSpec),
        some e', by simp [hr], rfl, rfl⟩
    · intro st hst
      rw [hr] at hst
      simp only [Option.some.injEq] at hst
      subst hst
      exact ⟨.New cli' (⟨c.String "name", c.String "image", c.String "mitm",
        c.String "registry", c.String "username", c.String "password"⟩ : DindSpec) (some e'),
        by simp [hr], rfl⟩
  · refine ⟨?_, ?_, ?_⟩
    · intro cli w1' g1
      rw [h1] at g1
      simp only [Prod.mk.injEq, Except.ok.injEq] at g1
      obtain ⟨rfl, rfl⟩ := g1
      exact ⟨none, by simp [hr]⟩
    · intro cli w1' w2' g1 g2
      rw [h1] at g1
      simp only [Prod.mk.injEq, Except.ok.injEq] at g1
      obtain ⟨rfl, rfl⟩ := g1
      exact ⟨(⟨c.String "name", c.String "image", c.String "mitm",
        c.String "registry", c.String "username", c.String "password"⟩ : DindSpec),
        none, by simp [hr], rfl, rfl⟩
    · intro st hst
      simp [hr] at hst

/-- C2 as amended, evaluated on the flags `--username bob` without
`--registry`: the spec reaches `dind.New` with the username and the empty
registry address. -/
theorem CreateDind_no_spec_validation_witness :
    ∃ spec e, Event.New 7 spec e ∈
        (CreateDind (sampleCollaborators none none none) (sampleContext "pw") 0).trace ∧
      spec.RegistryServerAddress = (sampleContext "pw").String "registry" ∧
      spec.RegistryUsername = (sampleContext "pw").String "username" :=
  (CreateDind_no_spec_validation (sampleCollaborators none none none)
    (sampleContext "pw") 0).2.1 7 1 2 rfl rfl

/-- C4 refuted on the code: when `LazyImageLoad` fails for the image flag
`alpine:3.18` the wrapping message is `failed to load dind image`, which
does not name the reference; when `dind.New` fails for the name flag `sbx1`
the message is `failed to create new dind`, which does not name it. -/
theorem CreateDind_messages_omit_identifiers :
    (sampleContext "pw").String "image" = "alpine:3.18" ∧
    (sampleContext "pw").String "name" = "sbx1" ∧
    (CreateDind (sampleCollaborators none (some ⟨"pull denied"⟩) none)
        (sampleContext "pw") 0).err = some ⟨⟨"pull denied"⟩, "failed to load dind image"⟩ ∧
    ¬ Mentions "failed to load dind image" "alpine:3.18" ∧
    (CreateDind (sampleCollaborators none none (some ⟨"name in use"⟩))
        (sampleContext "pw") 0).err = some ⟨⟨"name in use"⟩, "failed to create new dind"⟩ ∧
    ¬ Mentions "failed to create new dind" "sbx1" := by
  refine ⟨by decide, by decide, ?_, ?_, ?_, ?_⟩
  · simp [CreateDind, sampleCollaborators, sampleContext, Propagate]
  · intro h
    have := h.subset (show ':' ∈ "alpine:3.18".data by decide)
    revert this
    decide
  · simp [CreateDind, sampleCollaborators, sampleContext, Propagate]
  · intro h
    have := h.subset (show 'x' ∈ "sbx1".data by decide)
    revert this
    decide

/-- C4 as amended: every error `CreateDind` returns wraps the error of the
failing (last) collaborator call with a message that names the operation
only.  The message is `failed to load dind image` when `LazyImageLoad`
fails and `failed to create new dind` when `dind.New` fails, the same for
every value of the `image` and `name` flags; when `NewEnvClient` fails it is
`failed to create docker client from env: ` followed by that error's text. -/
theorem CreateDind_error_messages {σ κ δ : Type} (col : Collaborators σ κ δ)
    (c : Context) (w : σ) (st : Stacktrace) (h : (CreateDind col c w).err = some st) :
    (∃ e, (CreateDind col c w).trace.getLast? = some (.NewEnvClient (some e)) ∧
      st = ⟨e, "failed to create docker client from env: " ++ e.Error⟩) ∨
    (∃ cli e, (CreateDind col c w).trace.getLast? =
        some (.LazyImageLoad cli (c.String "image") (some e)) ∧
      st = ⟨e, "failed to load dind image"⟩) ∨
    (∃ cli spec e, (CreateDind col c w).trace.getLast? = some (.New cli spec (some e)) ∧
      spec.Name = c.String "name" ∧
      st = ⟨e, "failed to create new dind"⟩) := by
  rcases CreateDind_outcome col c w with ⟨e', w1, h1, hr⟩ | ⟨cli', w1, e', w2, h1, h2, hr⟩ |
    ⟨cli', w1, w2, e', w3, h1, h2, h3, hr⟩ | ⟨cli', w1, w2, d, w3, h1, h2, h3, hr⟩
  · rw [hr] at h
    simp only [Option.some.injEq] at h
    subst h
    exact Or.inl ⟨e', by simp [hr], rfl⟩
  · rw [hr] at h
    simp only [Option.some.injEq] at h
    subst h
    exact Or.inr (Or.inl ⟨cli', e', by simp [hr], rfl⟩)
  · rw [hr] at h
    simp only [Option.some.injEq] at h
    subst h
    exact Or.inr (Or.inr ⟨cli', (⟨c.String "name", c.String "image", c.String "mitm",
        c.String "registry", c.String "username", c.String "password"⟩ : DindSpec),
      e', by simp [hr], rfl, rfl⟩)
  · simp [hr] at h

/-- C4 as amended, evaluated on a failing `LazyImageLoad`. -/
theorem CreateDind_error_messages_witness :
    (∃ e, (CreateDind (sampleCollaborators none (some ⟨"pull denied"⟩) none)
        (sampleContext "pw") 0).trace.getLast? = some (.NewEnvClient (some e)) ∧
      (⟨⟨"pull denied"⟩, "failed to load dind image"⟩ : Stacktrace) =
        ⟨e, "failed to create docker client from env: " ++ e.Error⟩) ∨
    (∃ cli e, (CreateDind (sampleCollaborators none (some ⟨"pull denied"⟩) none)
        (sampleContext "pw") 0).trace.getLast? =
        some (.LazyImageLoad cli ((sampleContext "pw").String "image") (some e)) ∧
      (⟨⟨"pull denied"⟩, "failed to load dind image"⟩ : Stacktrace) =
        ⟨e, "failed to load dind image"⟩) ∨
    (∃ cli spec e, (CreateDind (sampleCollaborators none (some ⟨"pull denied"⟩) none)
        (sampleContext "pw") 0).trace.getLast? = some (.New cli spec (some e)) ∧
      spec.Name = (sampleContext "pw").String "name" ∧
      (⟨⟨"pull denied"⟩, "failed to load dind image"⟩ : Stacktrace) =
        ⟨e, "failed to create new dind"⟩) :=
  CreateDind_error_messages (sampleCollaborators none (some ⟨"pull denied"⟩) none)
    (sampleContext "pw") 0 ⟨⟨"pull denied"⟩, "failed to load dind image"⟩
    (by simp [CreateDind, sampleCollaborators, sampleContext, Propagate])

/-- C6: the password stays inside the spec handed to `dind.New`.  Take two
executions whose flags differ at most in `password` and in which the
`dind.New` calls, when both are reached, return the same error.  Then both
return the same result and make the same `LazyImageLoad` calls (same client,
same reference), and the spec of every `dind.New` call carries the password
flag in `RegistryPassword`. -/
theorem CreateDind_password_confined {σ κ δ : Type} (col : Collaborators σ κ δ)
    (c1 c2 : Context) (w : σ)
    (hflags : ∀ flag, flag ≠ "password" → c1.String flag = c2.String flag)
    (hnew : ∀ cli1 spec1 e1 cli2 spec2 e2,
      Event.New cli1 spec1 e1 ∈ (CreateDind col c1 w).trace →
      Event.New cli2 spec2 e2 ∈ (CreateDind col c2 w).trace → e1 = e2) :
    (CreateDind col c1 w).err = (CreateDind col c2 w).err ∧
    (CreateDind col c1 w).trace.filterMap Event.lazyArgs =
      (CreateDind col c2 w).trace.filterMap Event.lazyArgs ∧
    (∀ cli spec e, Event.New cli spec e ∈ (CreateDind col c1 w).trace →
      spec.RegistryPassword = c1.String "password") := by
  have hi := hflags "image" (by decide)
  have hpw : ∀ cli spec e, Event.New cli spec e ∈ (CreateDind col c1 w).trace →
      spec.RegistryPassword = c1.String "password" := by
    intro cli spec e hm
    rcases CreateDind_outcome col c1 w with ⟨_, _, _, hr⟩ | ⟨_, _, _, _, _, _, hr⟩ |
      ⟨_, _, _, _, _, _, _, _, hr⟩ | ⟨_, _, _, _, _, _, _, _, hr⟩ <;>
    simp only [hr, List.mem_cons, List.mem_singleton, List.not_mem_nil, or_false, false_or,
      Event.New.injEq, reduceCtorEq] at hm
    · obtain ⟨-, rfl, -⟩ := hm; rfl
    · obtain ⟨-, rfl, -⟩ := hm; rfl
  suffices hmain : (CreateDind col c1 w).err = (CreateDind col c2 w).err ∧
      (CreateDind col c1 w).trace.filterMap Event.lazyArgs =
        (CreateDind col c2 w).trace.filterMap Event.lazyArgs from ⟨hmain.1, hmain.2, hpw⟩
  rcases CreateDind_outcome col c1 w with ⟨e, w1, h1, hr⟩ | ⟨cli, w1, e, w2, h1, h2, hr⟩ |
    ⟨cli, w1, w2, e, w3, h1, h2, h3, hr⟩ | ⟨cli, w1, w2, d, w3, h1, h2, h3, hr⟩ <;>
  rcases CreateDind_outcome col c2 w with ⟨e', v1, g1, gr⟩ | ⟨cli', v1, e', v2, g1, g2, gr⟩ |
    ⟨cli', v1, v2, e', v3, g1, g2, g3, gr⟩ | ⟨cli', v1, v2, d', v3, g1, g2, g3, gr⟩ <;>
  rw [h1] at g1 <;>
  simp only [Prod.mk.injEq, Except.ok.injEq, Except.error.injEq, reduceCtorEq, false_and] at g1 <;>
  obtain ⟨rfl, rfl⟩ := g1 <;>
  (try (rw [← hi, h2] at g2
        simp only [Prod.mk.injEq, Option.some.injEq, reduceCtorEq, false_and, true_and] at g2)) <;>
  (try subst g2) <;>
  (try obtain ⟨rfl, rfl⟩ := g2)
  · simp [hr, gr, Event.lazyArgs]
  · simp [hr, gr, Event.lazyArgs, hi]
  · have := hnew cli (⟨c1.String "name", c1.String "image", c1.String "mitm",
      c1.String "registry", c1.String "username", c1.String "password"⟩ : DindSpec) (some e)
      cli (⟨c2.String "name", c2.String "image", c2.String "mitm",
      c2.String "registry", c2.String "username", c2.String "password"⟩ : DindSpec) (some e') (by simp [hr]) (by simp [gr])
    simp only [Option.some.injEq] at this
    subst this
    simp [hr, gr, Event.lazyArgs, hi]
  · have := hnew cli (⟨c1.String "name", c1.String "image", c1.String "mitm",
      c1.String "registry", c1.String "username", c1.String "password"⟩ : DindSpec) (some e)
      cli (⟨c2.String "name", c2.String "image", c2.String "mitm",
      c2.String "registry", c2.String "username", c2.String "password"⟩ : DindSpec) none (by simp [hr]) (by simp [gr])
    simp at this
  · have := hnew cli (⟨c1.String "name", c1.String "image", c1.String "mitm",
      c1.String "registry", c1.String "username", c1.String "password"⟩ : DindSpec) none
      cli (⟨c2.String "name", c2.String "image", c2.String "mitm",
      c2.String "registry", c2.String "username", c2.String "password"⟩ : DindSpec) (some e') (by simp [hr]) (by simp [gr])
    simp at this
  · simp [hr, gr, Event.lazyArgs, hi]

/-- C6 evaluated: the sample runs with passwords `hunter2` and `pw`. -/
theorem CreateDind_password_confined_witness :
    (CreateDind (sampleCollaborators none none (some ⟨"name in use"⟩))
        (sampleContext "hunter2") 0).err =
      (CreateDind (sampleCollaborators none none (some ⟨"name in use"⟩))
        (sampleContext "pw") 0).err ∧
    (CreateDind (sampleCollaborators none none (some ⟨"name in use"⟩))
        (sampleContext "hunter2") 0).trace.filterMap Event.lazyArgs =
      (CreateDind (sampleCollaborators none none (some ⟨"name in use"⟩))
        (sampleContext "pw") 0).trace.filterMap Event.lazyArgs ∧
    (∀ cli spec e, Event.New cli spec e ∈
        (CreateDind (sampleCollaborators none none (some ⟨"name in use"⟩))
          (sampleContext "hunter2") 0).trace →
      spec.RegistryPassword = (sampleContext "hunter2").String "password") :=
  CreateDind_password_confined (sampleCollaborators none none (some ⟨"name in use"⟩))
    (sampleContext "hunter2") (sampleContext "pw") 0
    (by intro flag hf; simp [sampleContext, hf])
    (by
      intro cli1 spec1 e1 cli2 spec2 e2 h1 h2
      simp [CreateDind, sampleCollaborators, sampleContext, Propagate] at h1 h2
      rw [h1.2.2, h2.2.2])

/-! ## The provisioner and the resolver on the fake engine -/

/-- The rollback of `createAndStart`: when its trace records a successful
creation and a failed start, the trace ends with the removal of that
container, and the container is gone exactly when the removal succeeded. -/
theorem createAndStart_rollback (eng : Engine) (spec : DindSpec) (att : Option String)
    (pre : List EngineCall) (id : Nat)
    (hpre : ∀ f ∈ pre, ∃ n r, f = .FindNetworkOrResource n r)
    (hs : EngineCall.StartContainer id false ∈ (createAndStart eng spec att pre).calls) :
    ∃ ok, (createAndStart eng spec att pre).calls =
        pre ++ [.CreateContainer spec.Name (some id), .StartContainer id false,
          .RemoveContainer id ok] ∧
      (createAndStart eng spec att pre).result = .error (.StartFailed id (!ok)) ∧
      (ok = true → ∀ k ∈ (createAndStart eng spec att pre).engine.containers,
        k.name ≠ spec.Name) ∧
      (ok = false → ∃ k ∈ (createAndStart eng spec att pre).engine.containers,
        k.name = spec.Name ∧ k.id = id) := by
  have hnot : EngineCall.StartContainer id false ∉ pre := by
    intro h
    obtain ⟨n, r, hn⟩ := hpre _ h
    cases hn
  unfold createAndStart at hs ⊢
  unfold Engine.CreateContainer at hs ⊢
  by_cases hr : eng.reachable = true
  · by_cases hd : (eng.containers.any fun k => k.name == spec.Name) = true
    · simp [hr, hd, hnot] at hs
    · simp only [hr, hd, if_true, Bool.false_eq_true, if_false] at hs ⊢
      unfold Engine.StartContainer at hs ⊢
      by_cases hf : eng.startFails = true
      · simp only [hr, hf, Bool.not_true, Bool.and_false, Bool.false_eq_true, if_false] at hs ⊢
        unfold Engine.RemoveContainer at hs ⊢
        simp only [List.mem_append, hnot, false_or, List.mem_cons, EngineCall.StartContainer.injEq,
          reduceCtorEq, List.mem_singleton, List.not_mem_nil, or_false, and_true] at hs
        subst hs
        by_cases hm : eng.removeFails = true
        · refine ⟨false, ?_, ?_, ?_, ?_⟩
          · simp [hr, hm]
          · simp [hr, hm]
          · intro h; cases h
          · intro _
            exact ⟨⟨eng.nextId, spec.Name, spec.Image, att, false⟩, by simp [hr, hm], rfl, rfl⟩
        · refine ⟨true, ?_, ?_, ?_, ?_⟩
          · simp [hr, hm]
          · simp [hr, hm]
          · intro _ k hk
            simp only [hr, hm, Bool.not_false, Bool.and_self, if_true, List.filter_cons, bne_self_eq_false,
              Bool.false_eq_true, if_false, List.mem_filter] at hk
            intro hname
            apply hd
            rw [List.any_eq_true]
            exact ⟨k, hk.1, by simp [hname]⟩
          · intro h; cases h
      · simp [hr, hf, hnot] at hs
  · simp [hr, hnot] at hs

/-- C8 refuted on the modelled provisioner: on the fake engine where both
the start and the removal fail, `dind.New` for the spec named `sbx1` issues
create, start and remove, returns `StartFailed` with the residual flag, and
the container named `sbx1` still exists afterwards. -/
theorem New_failed_cleanup_leaves_container :
    (New (sampleEngine true true) sampleSpec).calls =
      [.CreateContainer "sbx1" (some 1), .StartContainer 1 false, .RemoveContainer 1 false] ∧
    (New (sampleEngine true true) sampleSpec).result = .error (.StartFailed 1 true) ∧
    (New (sampleEngine true true) sampleSpec).engine.containers =
      [⟨1, "sbx1", "alpine:3.18", none, false⟩] ∧
    ¬ (∀ k ∈ (New (sampleEngine true true) sampleSpec).engine.containers,
      k.name ≠ sampleSpec.Name) := by
  refine ⟨by decide, by rfl, by decide, by decide⟩

/-- C8 as amended: rollback on start failure.  For every spec and engine,
when `dind.New` created the container and its start failed, the last engine
call is the removal of that container and the error is `StartFailed`; when
the removal succeeded no container with the requested name exists after the
call, and when it failed the container remains and the error reports it as
residual. -/
theorem New_rollback_on_start_failure (eng : Engine) (spec : DindSpec) (id : Nat)
    (hs : EngineCall.StartContainer id false ∈ (New eng spec).calls) :
    ∃ pre ok, (New eng spec).calls =
        pre ++ [.CreateContainer spec.Name (some id), .StartContainer id false,
          .RemoveContainer id ok] ∧
      (New eng spec).result = .error (.StartFailed id (!ok)) ∧
      (ok = true → ∀ k ∈ (New eng spec).engine.containers, k.name ≠ spec.Name) ∧
      (ok = false → ∃ k ∈ (New eng spec).engine.containers,
        k.name = spec.Name ∧ k.id = id) := by
  unfold New at hs ⊢
  by_cases hv : validSpec spec = true
  · by_cases hm : spec.MITMProxyName = ""
    · simp only [hv, hm, if_true] at hs ⊢
      exact ⟨[], createAndStart_rollback eng spec none [] id (by simp) hs⟩
    · simp only [hv, hm, if_true, if_false] at hs ⊢
      rcases hf : eng.FindNetworkOrResource spec.MITMProxyName with _ | _ | a
      · simp [hf] at hs
      · simp [hf] at hs
      · simp only [hf] at hs ⊢
        exact ⟨_, createAndStart_rollback eng spec (some a) _ id (by simp) hs⟩
  · simp [hv] at hs

/-- C8 as amended, evaluated on the fake engine whose start fails and whose
removal works: afterwards no container named `sbx1` exists. -/
theorem New_rollback_on_start_failure_witness :
    ∃ pre ok, (New (sampleEngine true false) sampleSpec).calls =
        pre ++ [.CreateContainer sampleSpec.Name (some 1), .StartContainer 1 false,
          .RemoveContainer 1 ok] ∧
      (New (sampleEngine true false) sampleSpec).result = .error (.StartFailed 1 (!ok)) ∧
      (ok = true → ∀ k ∈ (New (sampleEngine true false) sampleSpec).engine.containers,
        k.name ≠ sampleSpec.Name) ∧
      (ok = false → ∃ k ∈ (New (sampleEngine true false) sampleSpec).engine.containers,
        k.name = sampleSpec.Name ∧ k.id = 1) :=
  New_rollback_on_start_failure (sampleEngine true false) sampleSpec 1 (by decide)

/-- C9 refuted on the modelled resolver: for the reference `ghost:1`, which
the registry does not serve, two calls of `LazyImageLoad` in a row issue two
pulls. -/
theorem LazyImageLoad_failed_pull_repeats :
    (LazyImageLoad (sampleEngine false false) "ghost:1").result = some (.PullFailed "ghost:1") ∧
    ((LazyImageLoad (sampleEngine false false) "ghost:1").calls ++
      (LazyImageLoad (LazyImageLoad (sampleEngine false false) "ghost:1").engine
        "ghost:1").calls).countP EngineCall.isPull = 2 := by
  decide

/-- C9 as amended: lazy, idempotent resolution.  For every engine and
reference, `LazyImageLoad` issues no pull when the image is present locally
and at most one pull in any call; and when a call returns without error, a
second call with the same reference succeeds without a pull, so that the two
calls together issue at most one pull. -/
theorem LazyImageLoad_lazy_idempotent (eng : Engine) (ref : String) :
    (ref ∈ eng.images → (LazyImageLoad eng ref).calls.countP EngineCall.isPull = 0) ∧
    (LazyImageLoad eng ref).calls.countP EngineCall.isPull ≤ 1 ∧
    ((LazyImageLoad eng ref).result = none →
      (LazyImageLoad (LazyImageLoad eng ref).engine ref).result = none ∧
      (LazyImageLoad (LazyImageLoad eng ref).engine ref).calls.countP EngineCall.isPull = 0 ∧
      ((LazyImageLoad eng ref).calls ++
        (LazyImageLoad (LazyImageLoad eng ref).engine ref).calls).countP
          EngineCall.isPull ≤ 1) := by
  unfold LazyImageLoad Engine.FindImage Engine.PullImage
  by_cases hr : eng.reachable = true
  · by_cases hi : ref ∈ eng.images
    · simp [hr, hi, EngineCall.isPull]
    · by_cases hu : ref ∈ eng.upstream
      · simp [hr, hi, hu, EngineCall.isPull]
      · simp [hr, hi, hu, EngineCall.isPull]
  · simp [hr, EngineCall.isPull]

/-- C9 as amended, evaluated: `alpine:3.18` is absent and can be pulled; the
first call pulls it once, the second call is a cache hit. -/
theorem LazyImageLoad_lazy_idempotent_witness :
    (LazyImageLoad (LazyImageLoad (sampleEngine false false) "alpine:3.18").engine
        "alpine:3.18").result = none ∧
      (LazyImageLoad (LazyImageLoad (sampleEngine false false) "alpine:3.18").engine
        "alpine:3.18").calls.countP EngineCall.isPull = 0 ∧
      ((LazyImageLoad (sampleEngine false false) "alpine:3.18").calls ++
        (LazyImageLoad (LazyImageLoad (sampleEngine false false) "alpine:3.18").engine
          "alpine:3.18").calls).countP EngineCall.isPull ≤ 1 :=
  (LazyImageLoad_lazy_idempotent (sampleEngine false false) "alpine:3.18").2.2 (by decide)

end Dindcmd
